import Mathlib

/-!
Verification of the HushHour live Q&A frontend (React/TypeScript).

Shallow embedding of the client-side logic found in
`src/frontend/src/pages/RoomPage.tsx`, `src/frontend/src/hooks/useRoomSocket.ts`
(which also contains the `useRoomLogic` hook) and
`src/frontend/src/hooks/useDashboardLogic.ts`.

Modelling conventions:
* JavaScript ISO date strings are modelled as epoch milliseconds (`Nat`),
  because the code only ever compares them through `new Date(x).getTime()`.
* `Array.prototype.sort(cmp)` (ES2019: sorted according to the comparator and
  stable) is modelled by `List.insertionSort` over the relation
  `cmp a b ≤ 0`, which is sorted and stable for the total preorders used here.
* `localStorage` is modelled as an association list; `JSON.parse` outcomes are
  modelled explicitly where a claim depends on them.
-/

namespace HushHour

/-- A question record, as in the `Question` interface of `RoomPage.tsx`
(`id`, `content`, `votes`, `created_at`, `is_answered`, `organizer_reply?`).
`created_at` is epoch milliseconds. -/
structure Question where
  id : String
  content : String
  votes : Int
  created_at : Nat
  is_answered : Bool
  organizer_reply : Option String := none
deriving DecidableEq, Repr

/-- The two sort modes offered by `RoomPage.tsx` and `useDashboardLogic.ts`
(`useState<'top' | 'latest'>`). -/
inductive SortMode
  | top
  | latest
deriving DecidableEq, Repr

/-- Comparator passed to `.sort` in `RoomPage.tsx` lines 197-204:
`top` puts unanswered before answered (`a.is_answered ? 1 : -1`) and then
compares `b.votes - a.votes`; `latest` compares
`new Date(a.created_at).getTime() - new Date(b.created_at).getTime()`. -/
def roomPageCmp (sortBy : SortMode) (a b : Question) : Int :=
  match sortBy with
  | .top =>
      if a.is_answered != b.is_answered then (if a.is_answered then 1 else -1)
      else b.votes - a.votes
  | .latest => (a.created_at : Int) - (b.created_at : Int)

/-- Comparator used in `useDashboardLogic.ts` lines 230-236:
`top` compares `b.votes - a.votes` and tie-breaks by
`new Date(b.created_at) - new Date(a.created_at)` (newest first);
`latest` compares `new Date(b.created_at) - new Date(a.created_at)`
(newest first, i.e. descending). -/
def dashboardCmp (sortBy : SortMode) (a b : Question) : Int :=
  match sortBy with
  | .top =>
      if b.votes != a.votes then b.votes - a.votes
      else (b.created_at : Int) - (a.created_at : Int)
  | .latest => (b.created_at : Int) - (a.created_at : Int)

/-- The ordering relation induced by a JavaScript sort comparator:
`a` may come before `b` exactly when `cmp a b ≤ 0`. -/
def jsSortLe (cmp : Question → Question → Int) (a b : Question) : Prop :=
  cmp a b ≤ 0

instance (cmp : Question → Question → Int) : DecidableRel (jsSortLe cmp) :=
  fun a b => inferInstanceAs (Decidable (cmp a b ≤ 0))

/-- `RoomPage.tsx` line 197: `const questions = (initialQuestions || []).sort(...)`.
The stable sort is modelled by `List.insertionSort`. -/
def roomPageQuestions (sortBy : SortMode) (initialQuestions : Option (List Question)) :
    List Question :=
  List.insertionSort (jsSortLe (roomPageCmp sortBy)) (initialQuestions.getD [])

/-- `useDashboardLogic.ts` line 230: `const sortedQuestions = [...questions].sort(...)`. -/
def sortedQuestionsDashboard (sortBy : SortMode) (questions : List Question) :
    List Question :=
  List.insertionSort (jsSortLe (dashboardCmp sortBy)) questions

/-- Characterisation of the RoomPage `top` comparator relation. -/
theorem jsSortLe_roomPageCmp_top (a b : Question) :
    jsSortLe (roomPageCmp .top) a b ↔
      (a.is_answered = false ∧ b.is_answered = true) ∨
      (a.is_answered = b.is_answered ∧ b.votes ≤ a.votes) := by
  unfold jsSortLe roomPageCmp
  cases ha : a.is_answered <;> cases hb : b.is_answered <;> simp <;> omega

/-- Characterisation of the RoomPage `latest` comparator relation. -/
theorem jsSortLe_roomPageCmp_latest (a b : Question) :
    jsSortLe (roomPageCmp .latest) a b ↔ a.created_at ≤ b.created_at := by
  simp only [jsSortLe, roomPageCmp]
  omega

/-- Characterisation of the dashboard `top` comparator relation. -/
theorem jsSortLe_dashboardCmp_top (a b : Question) :
    jsSortLe (dashboardCmp .top) a b ↔
      (b.votes < a.votes ∨ (a.votes = b.votes ∧ b.created_at ≤ a.created_at)) := by
  unfold jsSortLe dashboardCmp
  by_cases h : b.votes = a.votes <;> simp [h] <;> omega

/-- Characterisation of the dashboard `latest` comparator relation. -/
theorem jsSortLe_dashboardCmp_latest (a b : Question) :
    jsSortLe (dashboardCmp .latest) a b ↔ b.created_at ≤ a.created_at := by
  simp only [jsSortLe, dashboardCmp]
  omega

instance : IsTotal Question (jsSortLe (roomPageCmp .top)) :=
  ⟨by
    intro a b
    rw [jsSortLe_roomPageCmp_top, jsSortLe_roomPageCmp_top]
    cases ha : a.is_answered <;> cases hb : b.is_answered <;> simp <;> omega⟩

instance : IsTrans Question (jsSortLe (roomPageCmp .top)) :=
  ⟨by
    intro a b c hab hbc
    rw [jsSortLe_roomPageCmp_top] at hab hbc ⊢
    rcases hab with ⟨h1, h2⟩ | ⟨h1, h2⟩ <;> rcases hbc with ⟨h3, h4⟩ | ⟨h3, h4⟩ <;>
      simp_all <;> omega⟩

instance : IsTotal Question (jsSortLe (roomPageCmp .latest)) :=
  ⟨by
    intro a b
    rw [jsSortLe_roomPageCmp_latest, jsSortLe_roomPageCmp_latest]
    omega⟩

instance : IsTrans Question (jsSortLe (roomPageCmp .latest)) :=
  ⟨by
    intro a b c hab hbc
    rw [jsSortLe_roomPageCmp_latest] at hab hbc ⊢
    omega⟩

instance : IsTotal Question (jsSortLe (dashboardCmp .top)) :=
  ⟨by
    intro a b
    rw [jsSortLe_dashboardCmp_top, jsSortLe_dashboardCmp_top]
    omega⟩

instance : IsTrans Question (jsSortLe (dashboardCmp .top)) :=
  ⟨by
    intro a b c hab hbc
    rw [jsSortLe_dashboardCmp_top] at hab hbc ⊢
    omega⟩

instance : IsTotal Question (jsSortLe (dashboardCmp .latest)) :=
  ⟨by
    intro a b
    rw [jsSortLe_dashboardCmp_latest, jsSortLe_dashboardCmp_latest]
    omega⟩

instance : IsTrans Question (jsSortLe (dashboardCmp .latest)) :=
  ⟨by
    intro a b c hab hbc
    rw [jsSortLe_dashboardCmp_latest] at hab hbc ⊢
    omega⟩

/-- Claim C1 counterexample: in the RoomPage `top` sort, two unanswered
questions with equal vote counts are NOT reordered newest-first: the older
question (created at 100) stays before the newer one (created at 200),
because the comparator in `RoomPage.tsx` lines 197-204 has no `created_at`
tie-break and the sort is stable. The claim demands the newer question first. -/
theorem claim1_counterexample :
    roomPageQuestions .top
        (some [{ id := "q1", content := "older", votes := 3, created_at := 100,
                 is_answered := false, organizer_reply := none },
               { id := "q2", content := "newer", votes := 3, created_at := 200,
                 is_answered := false, organizer_reply := none }]) =
      [{ id := "q1", content := "older", votes := 3, created_at := 100,
         is_answered := false, organizer_reply := none },
       { id := "q2", content := "newer", votes := 3, created_at := 200,
         is_answered := false, organizer_reply := none }] := by
  decide

/-- Claim C1 (amended): in the RoomPage `top` sort, every unanswered question
is placed before every answered question and, within each group, higher vote
counts come first; questions with equal vote count and equal answered status
keep their relative input order (the comparator has no `created_at`
tie-break). The dashboard hook's `top` comparator sorts by vote count
descending with ties broken newest-first, but ignores the answered flag
entirely. -/
theorem claim1_top_sort_amended :
    (∀ l : List Question, (roomPageQuestions .top (some l)).Pairwise
        (fun a b => (a.is_answered = true → b.is_answered = true) ∧
                    (a.is_answered = b.is_answered → b.votes ≤ a.votes))) ∧
    (∀ (l : List Question) (a b : Question),
        a.is_answered = b.is_answered → a.votes = b.votes →
        List.Sublist [a, b] l →
        List.Sublist [a, b] (roomPageQuestions .top (some l))) ∧
    (∀ l : List Question, (sortedQuestionsDashboard .top l).Pairwise
        (fun a b => b.votes ≤ a.votes ∧
                    (a.votes = b.votes → b.created_at ≤ a.created_at))) := by
  refine ⟨fun l => ?_, fun l a b hans hv hsub => ?_, fun l => ?_⟩
  · simp only [roomPageQuestions, Option.getD_some]
    refine List.Pairwise.imp (fun hab => ?_)
      (List.sorted_insertionSort (jsSortLe (roomPageCmp .top)) l)
    rcases (jsSortLe_roomPageCmp_top _ _).mp hab with ⟨h1, h2⟩ | ⟨h1, h2⟩
    · exact ⟨fun h => h2, fun h => by simp_all⟩
    · exact ⟨fun h => h1 ▸ h, fun _ => h2⟩
  · simp only [roomPageQuestions, Option.getD_some]
    refine List.pair_sublist_insertionSort ?_ hsub
    exact (jsSortLe_roomPageCmp_top a b).mpr (Or.inr ⟨hans, le_of_eq hv.symm⟩)
  · refine List.Pairwise.imp (fun hab => ?_)
      (List.sorted_insertionSort (jsSortLe (dashboardCmp .top)) l)
    rcases (jsSortLe_dashboardCmp_top _ _).mp hab with h | ⟨h1, h2⟩
    · exact ⟨le_of_lt h, fun hv => by omega⟩
    · exact ⟨le_of_eq h1.symm, fun _ => h2⟩

/-- Claim C1 witness: the stability part of the amended claim, applied to the
two tied questions of the counterexample. -/
theorem claim1_witness :
    List.Sublist
      [{ id := "q1", content := "older", votes := 3, created_at := 100,
         is_answered := false, organizer_reply := none },
       { id := "q2", content := "newer", votes := 3, created_at := 200,
         is_answered := false, organizer_reply := none }]
      (roomPageQuestions .top
        (some [{ id := "q1", content := "older", votes := 3, created_at := 100,
                 is_answered := false, organizer_reply := none },
               { id := "q2", content := "newer", votes := 3, created_at := 200,
                 is_answered := false, organizer_reply := none }])) :=
  claim1_top_sort_amended.2.1 _ _ _ rfl rfl (List.Sublist.refl _)

/-- Claim C2 counterexample: the dashboard hook's `latest` sort
(`useDashboardLogic.ts` lines 230-236) puts the NEWER question first
(descending `created_at`), contradicting the claim that `latest` output is
ordered by `created_at` ascending. -/
theorem claim2_counterexample :
    sortedQuestionsDashboard .latest
        [{ id := "q1", content := "older", votes := 0, created_at := 100,
           is_answered := false, organizer_reply := none },
         { id := "q2", content := "newer", votes := 0, created_at := 200,
           is_answered := false, organizer_reply := none }] =
      [{ id := "q2", content := "newer", votes := 0, created_at := 200,
         is_answered := false, organizer_reply := none },
       { id := "q1", content := "older", votes := 0, created_at := 100,
         is_answered := false, organizer_reply := none }] := by
  decide

/-- Claim C2 (amended): the RoomPage `latest` sort is totally ordered by
`created_at` ascending and stable for equal timestamps; the dashboard hook's
`latest` sort is ordered by `created_at` DESCENDING (newest first), also
stable for equal timestamps. -/
theorem claim2_latest_sort_amended :
    (∀ l : List Question, (roomPageQuestions .latest (some l)).Pairwise
        (fun a b => a.created_at ≤ b.created_at)) ∧
    (∀ (l : List Question) (a b : Question), a.created_at = b.created_at →
        List.Sublist [a, b] l →
        List.Sublist [a, b] (roomPageQuestions .latest (some l))) ∧
    (∀ l : List Question, (sortedQuestionsDashboard .latest l).Pairwise
        (fun a b => b.created_at ≤ a.created_at)) ∧
    (∀ (l : List Question) (a b : Question), a.created_at = b.created_at →
        List.Sublist [a, b] l →
        List.Sublist [a, b] (sortedQuestionsDashboard .latest l)) := by
  refine ⟨fun l => ?_, fun l a b ht hsub => ?_, fun l => ?_, fun l a b ht hsub => ?_⟩
  · simp only [roomPageQuestions, Option.getD_some]
    exact List.Pairwise.imp (fun hab => (jsSortLe_roomPageCmp_latest _ _).mp hab)
      (List.sorted_insertionSort (jsSortLe (roomPageCmp .latest)) l)
  · simp only [roomPageQuestions, Option.getD_some]
    exact List.pair_sublist_insertionSort
      ((jsSortLe_roomPageCmp_latest a b).mpr (le_of_eq ht)) hsub
  · exact List.Pairwise.imp (fun hab => (jsSortLe_dashboardCmp_latest _ _).mp hab)
      (List.sorted_insertionSort (jsSortLe (dashboardCmp .latest)) l)
  · exact List.pair_sublist_insertionSort
      ((jsSortLe_dashboardCmp_latest a b).mpr (le_of_eq ht.symm)) hsub

/-- Claim C2 witness: the stability part of the amended claim, applied to two
questions with equal timestamps. -/
theorem claim2_witness :
    List.Sublist
      [{ id := "qa", content := "first", votes := 1, created_at := 500,
         is_answered := false, organizer_reply := none },
       { id := "qb", content := "second", votes := 9, created_at := 500,
         is_answered := true, organizer_reply := none }]
      (roomPageQuestions .latest
        (some [{ id := "qa", content := "first", votes := 1, created_at := 500,
                 is_answered := false, organizer_reply := none },
               { id := "qb", content := "second", votes := 9, created_at := 500,
                 is_answered := true, organizer_reply := none }])) :=
  claim2_latest_sort_amended.2.1 _ _ _ rfl (List.Sublist.refl _)

/-- Client-side `localStorage`, modelled as an association list from keys to
JSON-decoded string arrays (the code only ever stores
`JSON.stringify` of arrays of question ids). `setItem` prepends; `getItem`
returns the most recent binding. -/
def setItem (storage : List (String × List String)) (k : String) (v : List String) :
    List (String × List String) :=
  (k, v) :: storage

/-- Look up a key in the modelled `localStorage`. -/
def getItem (storage : List (String × List String)) (k : String) :
    Option (List String) :=
  (storage.find? (fun p => p.1 == k)).map Prod.snd

/-- The client state relevant to vote deduplication in `RoomPage.tsx`:
the `votedQuestions` React state and the browser's `localStorage`. -/
structure VoteState where
  votedQuestions : List String
  storage : List (String × List String)
deriving DecidableEq, Repr

/-- `voteMutation.onMutate` of `RoomPage.tsx` lines 148-152 (and identically
`useRoomSocket.ts` lines 217-221): if the id is not yet in `votedQuestions`,
append it and persist the new array under the key `voted_${code}`. -/
def voteOnMutate (code : String) (st : VoteState) (questionId : String) : VoteState :=
  if st.votedQuestions.contains questionId then st
  else
    let newVoted := st.votedQuestions ++ [questionId]
    { votedQuestions := newVoted,
      storage := setItem st.storage ("voted_" ++ code) newVoted }

/-- The vote affordance of `RoomPage.tsx` lines 268-281: the button's
`onClick` runs `!hasVoted && !isExpired && voteMutation.mutate(q.id)` where
`hasVoted = votedQuestions.includes(q.id)`. The first component is the vote
request issued to the server (`none` when no request is made), the second the
resulting client state. -/
def voteClick (code : String) (st : VoteState) (questionId : String)
    (isExpired : Bool) : Option String × VoteState :=
  if st.votedQuestions.contains questionId || isExpired then (none, st)
  else (some questionId, voteOnMutate code st questionId)

/-- Claim C3: a question id already in the persisted per-room voted set is
never voted on again (no request, state unchanged); and every issued vote
request adds the id to `votedQuestions` and persists that set under the
room-keyed `localStorage` key `voted_${code}`. -/
theorem claim3_vote_dedup_guard :
    ∀ (code : String) (st : VoteState) (questionId : String) (isExpired : Bool),
      (st.votedQuestions.contains questionId = true →
        voteClick code st questionId isExpired = (none, st)) ∧
      (∀ (r : String) (st' : VoteState),
        voteClick code st questionId isExpired = (some r, st') →
        r = questionId ∧
        st'.votedQuestions.contains questionId = true ∧
        getItem st'.storage ("voted_" ++ code) = some st'.votedQuestions) := by
  intro code st questionId isExpired
  constructor
  · intro hmem
    unfold voteClick
    rw [hmem]
    simp
  · intro r st' h
    unfold voteClick at h
    cases hmem : st.votedQuestions.contains questionId
    · cases hexp : isExpired
      · rw [hmem, hexp] at h
        simp only [Bool.or_self, Bool.false_eq_true, if_false, Prod.mk.injEq,
          Option.some.injEq] at h
        obtain ⟨hr, hst⟩ := h
        subst hr
        subst hst
        refine ⟨rfl, ?_, ?_⟩
        · unfold voteOnMutate
          rw [hmem]
          simp
        · unfold voteOnMutate
          rw [hmem]
          simp [getItem, setItem]
      · rw [hmem, hexp] at h
        simp at h
    · rw [hmem] at h
      simp at h

/-- Claim C3 witness: both branches of the guard at concrete inputs: a repeat
vote on `"q1"` is refused, and a fresh vote on `"q2"` is issued and persisted. -/
theorem claim3_witness :
    voteClick "ROOM01" ⟨["q1"], [("voted_ROOM01", ["q1"])]⟩ "q1" false =
      (none, ⟨["q1"], [("voted_ROOM01", ["q1"])]⟩) ∧
    ("q2" = "q2" ∧
      (voteOnMutate "ROOM01" ⟨["q1"], [("voted_ROOM01", ["q1"])]⟩ "q2").votedQuestions.contains "q2"
        = true ∧
      getItem (voteOnMutate "ROOM01" ⟨["q1"], [("voted_ROOM01", ["q1"])]⟩ "q2").storage
          ("voted_" ++ "ROOM01") =
        some (voteOnMutate "ROOM01" ⟨["q1"], [("voted_ROOM01", ["q1"])]⟩ "q2").votedQuestions) :=
  ⟨(claim3_vote_dedup_guard "ROOM01" ⟨["q1"], [("voted_ROOM01", ["q1"])]⟩ "q1" false).1
      (by decide),
   (claim3_vote_dedup_guard "ROOM01" ⟨["q1"], [("voted_ROOM01", ["q1"])]⟩ "q2" false).2
      "q2" (voteOnMutate "ROOM01" ⟨["q1"], [("voted_ROOM01", ["q1"])]⟩ "q2") (by decide)⟩

/-- The optimistic placeholder synthesised in `postMutation.onMutate`
(`RoomPage.tsx` lines 100-106): client temporary id `temp-${Date.now()}`,
`votes: 0`, `created_at: new Date().toISOString()`, `is_answered: false`. -/
def optimisticQuestion (nowMs : Nat) (content : String) : Question :=
  { id := "temp-" ++ toString nowMs,
    content := content,
    votes := 0,
    created_at := nowMs,
    is_answered := false,
    organizer_reply := none }

/-- The splice step of `postMutation.onMutate` (`RoomPage.tsx` lines 108-113):
if a question list is cached, append the placeholder for `latest` and prepend
it for `top`; if no list is cached, the cache is left untouched. -/
def spliceOptimistic (sortBy : SortMode) (previousQuestions : Option (List Question))
    (oq : Question) : Option (List Question) :=
  match previousQuestions with
  | none => none
  | some l =>
      some (match sortBy with
            | .latest => l ++ [oq]
            | .top => oq :: l)

/-- `postMutation.onMutate` (`RoomPage.tsx` lines 96-116): returns the new
cache contents and the snapshot (`previousQuestions`) stored in the mutation
context. -/
def postOnMutate (sortBy : SortMode) (cache : Option (List Question)) (oq : Question) :
    Option (List Question) × Option (List Question) :=
  (spliceOptimistic sortBy cache oq, cache)

/-- `postMutation.onError` (`RoomPage.tsx` lines 124-129): if the context holds
a snapshot, write it back to the cache; otherwise leave the cache alone. -/
def postOnError (cache snapshot : Option (List Question)) : Option (List Question) :=
  match snapshot with
  | some previousQuestions => some previousQuestions
  | none => cache

/-- Claim C4: a failed submit rolls the question cache back to exactly the
snapshot captured in `onMutate` before the optimistic placeholder was
spliced in; in particular the placeholder is gone. The round trip
`onMutate` then `onError` is the identity on the cache. -/
theorem claim4_optimistic_rollback :
    ∀ (sortBy : SortMode) (cache : Option (List Question)) (oq : Question),
      postOnError (postOnMutate sortBy cache oq).1 (postOnMutate sortBy cache oq).2 = cache := by
  intro sortBy cache oq
  cases cache <;> rfl

/-- Claim C5 counterexample: a submit in `latest` mode while no question list
is cached (`getQueryData` returned `undefined`, so `previousQuestions` is
absent) splices nothing: the cache stays empty and the rendered view
`(initialQuestions || [])` is `[]`, so the new question does NOT appear as
the last element of the list immediately after the submit. -/
theorem claim5_counterexample :
    spliceOptimistic .latest none (optimisticQuestion 5 "hello") = none ∧
    roomPageQuestions .latest none = [] := by
  constructor <;> rfl

/-- Claim C5 (amended): whenever a question list is cached at submit time, the
optimistic placeholder (votes 0, not answered) is appended for `latest` —
appearing as the last element — and prepended for `top`; when no list is
cached, `onMutate` leaves the cache untouched and nothing is spliced. -/
theorem claim5_submit_latest_amended :
    ∀ (l : List Question) (nowMs : Nat) (content : String),
      spliceOptimistic .latest (some l) (optimisticQuestion nowMs content) =
        some (l ++ [optimisticQuestion nowMs content]) ∧
      (l ++ [optimisticQuestion nowMs content]).getLast? =
        some (optimisticQuestion nowMs content) ∧
      (optimisticQuestion nowMs content).votes = 0 ∧
      (optimisticQuestion nowMs content).is_answered = false ∧
      spliceOptimistic .top (some l) (optimisticQuestion nowMs content) =
        some (optimisticQuestion nowMs content :: l) ∧
      spliceOptimistic .latest none (optimisticQuestion nowMs content) = none := by
  intro l nowMs content
  exact ⟨rfl, List.getLast?_concat l, rfl, rfl, rfl, rfl⟩

/-- A WebSocket change event as the client sees it: a tagged record with a
`type` string and a `room_id`. The spec names the kinds
`ROOM_STATUS_CHANGED | ROOM_EXTENDED | QUESTION_CREATED | QUESTION_UPDATED`;
the client code compares against the literals
`'ROOM_STATUS_UPDATE'` and `'ROOM_EXTENDED'`. -/
structure WsEvent where
  type : String
  room_id : String
deriving DecidableEq, Repr

/-- Which client query caches a message handler invalidates (forcing a
re-fetch): the room record query and/or the question list query. -/
structure Invalidations where
  roomQuery : Bool
  questionsQuery : Bool
deriving DecidableEq, Repr

/-- The `lastMessage` effect of the `useRoomLogic` hook
(`useRoomSocket.ts` lines 131-138): on any event, invalidate the question
list; if the event type is `'ROOM_STATUS_UPDATE'` or `'ROOM_EXTENDED'`, also
invalidate the room query. -/
def useRoomLogicOnMessage (e : WsEvent) : Invalidations :=
  { roomQuery := e.type == "ROOM_STATUS_UPDATE" || e.type == "ROOM_EXTENDED",
    questionsQuery := true }

/-- The `lastMessage` effect of `RoomPage.tsx` lines 79-83: on any event,
invalidate only the question list; the room query is never invalidated. -/
def roomPageOnMessage (e : WsEvent) : Invalidations :=
  { roomQuery := false, questionsQuery := true }

/-- Claim C6 counterexample: the RoomPage event handler, given a room-extended
event, re-fetches the question list but does NOT re-fetch the room record,
although the claim requires the room record to be re-fetched for
status-changed and extended events. -/
theorem claim6_counterexample :
    roomPageOnMessage { type := "ROOM_EXTENDED", room_id := "r1" } =
      { roomQuery := false, questionsQuery := true } := by
  rfl

/-- Claim C6 (amended): every change event for the subscribed room triggers a
full re-fetch of the question list in both message handlers; the
`useRoomLogic` handler additionally re-fetches the room record exactly for
events typed `ROOM_STATUS_UPDATE` or `ROOM_EXTENDED`, while the `RoomPage`
handler never re-fetches the room record from an event. -/
theorem claim6_event_refetch_amended :
    ∀ e : WsEvent,
      (useRoomLogicOnMessage e).questionsQuery = true ∧
      (roomPageOnMessage e).questionsQuery = true ∧
      (useRoomLogicOnMessage e).roomQuery =
        (e.type == "ROOM_STATUS_UPDATE" || e.type == "ROOM_EXTENDED") ∧
      (roomPageOnMessage e).roomQuery = false := by
  intro e
  exact ⟨rfl, rfl, rfl, rfl⟩

/-- State of the `useRoomSocket` hook together with the browser's task queue,
used to model the connection lifecycle of `useRoomSocket.ts`:
`wsOpen` is whether `wsRef.current` holds a socket, `timer` the pending
reconnect timeout (with its delay in milliseconds), `closeEvents` the number
of `close` events queued for delivery (a `ws.close()` call or a network drop
queues the event; the handler runs in a later task), and `connectCalls`
counts executions of `connect()`. -/
structure SocketSim where
  mounted : Bool
  wsOpen : Bool
  timer : Option Nat
  closeEvents : Nat
  connectCalls : Nat
deriving DecidableEq, Repr

/-- `connect()` (`useRoomSocket.ts` lines 13-53) with a room id present:
opens a new socket and stores it in `wsRef`. -/
def connectStep (s : SocketSim) : SocketSim :=
  { s with wsOpen := true, connectCalls := s.connectCalls + 1 }

/-- Delivery of a queued `close` event to `ws.onclose`
(`useRoomSocket.ts` lines 38-45): clears `wsRef` and schedules `connect`
after a fixed 3000 ms backoff. -/
def oncloseStep (s : SocketSim) : SocketSim :=
  if s.closeEvents = 0 then s
  else { s with closeEvents := s.closeEvents - 1, wsOpen := false, timer := some 3000 }

/-- The scheduled reconnect timeout firing (`useRoomSocket.ts` lines 42-44):
calls `connect()`; `connect` itself checks only that a room id exists, not
whether the component is still mounted. -/
def timerFireStep (s : SocketSim) : SocketSim :=
  match s.timer with
  | none => s
  | some _ => connectStep { s with timer := none }

/-- An abnormal network closure of the open socket: the browser queues a
`close` event for the socket. -/
def abnormalCloseStep (s : SocketSim) : SocketSim :=
  if s.wsOpen then { s with closeEvents := s.closeEvents + 1 } else s

/-- The effect cleanup on unmount (`useRoomSocket.ts` lines 59-66):
`wsRef.current.close()` (queueing a `close` event for later delivery) and
`clearTimeout` of any reconnect timer pending at cleanup time. -/
def unmountStep (s : SocketSim) : SocketSim :=
  let s1 := { s with mounted := false }
  let s2 := if s1.wsOpen then { s1 with closeEvents := s1.closeEvents + 1 } else s1
  { s2 with timer := none }

/-- Claim C7: abnormal closure does schedule a reconnect after a fixed 3000 ms
backoff (first two conjuncts); but unmounting while the socket is open does
NOT prevent reconnection: the cleanup's own `ws.close()` fires `onclose`
after the cleanup has already run `clearTimeout`, scheduling a fresh 3-second
timer whose `connect()` call executes after unmount. Starting from a mounted,
connected state, the unmount-close-timer sequence performs a connection
attempt with the component unmounted. -/
theorem claim7_reconnect_after_unmount :
    (oncloseStep (abnormalCloseStep ⟨true, true, none, 0, 0⟩)).timer = some 3000 ∧
    (timerFireStep (oncloseStep (abnormalCloseStep ⟨true, true, none, 0, 0⟩))).connectCalls
      = 1 ∧
    timerFireStep (oncloseStep (unmountStep ⟨true, true, none, 0, 0⟩)) =
      ⟨false, true, none, 0, 1⟩ := by
  refine ⟨rfl, rfl, rfl⟩

/-- Room lifecycle status, as in the dashboard's `Room` interface
(`'WAITING' | 'LIVE' | 'ENDED'`). -/
inductive RoomStatus
  | waiting
  | live
  | ended
deriving DecidableEq, Repr

/-- `useDashboardLogic.ts` line 41: `new Date(room.expires_at) < now`
(strict comparison of epoch milliseconds). -/
def dashIsExpired (expiresAt now : Nat) : Bool :=
  decide (expiresAt < now)

/-- `useDashboardLogic.ts` line 42: `room?.status === 'ENDED'`. -/
def dashIsEnded (status : RoomStatus) : Bool :=
  status == .ended

/-- `useDashboardLogic.ts` line 43: `areControlsLocked = isEnded || isExpired`. -/
def areControlsLocked (status : RoomStatus) (expiresAt now : Nat) : Bool :=
  dashIsEnded status || dashIsExpired expiresAt now

/-- The dashboard's 1-second ticking clock (`useDashboardLogic.ts` lines
24-27): `setInterval(() => setNow(new Date()), 1000)`; after `k` ticks the
clock reads `start + 1000 * k` milliseconds. -/
def tickNow (start k : Nat) : Nat :=
  start + 1000 * k

/-- `RoomPage.tsx` line 172: `new Date(room.expires_at) < new Date()`,
evaluated at render time (no ticking clock, no status check). -/
def roomPageIsExpired (expiresAt now : Nat) : Bool :=
  decide (expiresAt < now)

/-- Claim C8 counterexample: at the exact expiry instant
(`now = expires_at = 5000`) with a LIVE room, the dashboard does NOT lock
the controls, because the code compares `expires_at < now` strictly, while
the claim requires suppression as soon as `expires_at` is not after the
current time (`now ≥ expires_at`). -/
theorem claim8_counterexample :
    areControlsLocked .live 5000 5000 = false := by
  rfl

/-- Claim C8 (amended): the dashboard locks the submit/vote affordances
exactly when `status == ENDED` or `now` is STRICTLY past `expires_at`,
re-evaluated on a 1-second ticking clock, and once locked at some tick it
stays locked at every later tick; the RoomPage suppresses voting and the ask
box only on strict expiry (`expires_at < now`, evaluated at render), with no
`ENDED`-status check — in particular an expired RoomPage issues no vote
request. -/
theorem claim8_expiry_gating_amended :
    (∀ (status : RoomStatus) (expiresAt now : Nat),
      areControlsLocked status expiresAt now =
        ((status == RoomStatus.ended) || decide (expiresAt < now))) ∧
    (∀ (status : RoomStatus) (expiresAt start k k' : Nat), k ≤ k' →
      areControlsLocked status expiresAt (tickNow start k) = true →
      areControlsLocked status expiresAt (tickNow start k') = true) ∧
    (∀ (expiresAt now : Nat), roomPageIsExpired expiresAt now = decide (expiresAt < now)) ∧
    (∀ (code : String) (st : VoteState) (questionId : String),
      voteClick code st questionId true = (none, st)) := by
  refine ⟨fun status expiresAt now => rfl, ?_, fun expiresAt now => rfl, ?_⟩
  · intro status expiresAt start k k' hk h
    unfold areControlsLocked dashIsEnded dashIsExpired tickNow at h ⊢
    rcases Bool.or_eq_true_iff.mp h with h1 | h2
    · exact Bool.or_eq_true_iff.mpr (Or.inl h1)
    · refine Bool.or_eq_true_iff.mpr (Or.inr ?_)
      have := of_decide_eq_true h2
      exact decide_eq_true (by omega)
  · intro code st questionId
    unfold voteClick
    simp

/-- Claim C8 witness: the amended claim applied at concrete inputs: one tick
past the expiry instant the dashboard is locked, and stays locked two ticks
later. -/
theorem claim8_witness :
    areControlsLocked RoomStatus.live 5000 (tickNow 4500 3) = true :=
  claim8_expiry_gating_amended.2.1 RoomStatus.live 5000 4500 1 3 (by decide) (by decide)

/-- Leading decimal digits of a character list, if any. -/
def leadingNat (cs : List Char) : Option Nat :=
  let ds := cs.takeWhile Char.isDigit
  if ds.isEmpty then none
  else some (ds.foldl (fun a c => a * 10 + (c.toNat - 48)) 0)

/-- JavaScript `parseInt(s)` restricted to base 10: skip leading whitespace,
accept an optional sign, read leading decimal digits; `none` models `NaN`
(no digits found). -/
def jsParseInt (s : String) : Option Int :=
  let cs := s.data.dropWhile (fun c => c == ' ' || c == '\t' || c == '\n' || c == '\r')
  match cs with
  | '-' :: rest => (leadingNat rest).map (fun n => -(n : Int))
  | '+' :: rest => (leadingNat rest).map (fun n => (n : Int))
  | other => (leadingNat other).map (fun n => (n : Int))

/-- `handleExtend` of `useDashboardLogic.ts` lines 221-228:
`totalMinutes = parseInt(extendHours) * 60 + parseInt(extendMinutes)`; the
extend request (carrying `totalMinutes`) is issued only when
`totalMinutes > 0`. `none` means no request is issued (including the `NaN`
cases, since `NaN > 0` is false in JavaScript). -/
def handleExtend (extendHours extendMinutes : String) : Option Int :=
  match jsParseInt extendHours, jsParseInt extendMinutes with
  | some h, some m =>
      let totalMinutes := h * 60 + m
      if 0 < totalMinutes then some totalMinutes else none
  | _, _ => none

/-- A room record as the dashboard sees it (`DashboardPage`'s `Room`
interface); `expires_at` is epoch milliseconds. -/
structure Room where
  id : String
  title : String
  code : String
  status : RoomStatus
  expires_at : Nat
deriving DecidableEq, Repr

/-- The three session-control actions of `sessionControlMutation`
(`'start' | 'end' | 'extend'`); `stop` models the `'end'` action string. -/
inductive SessionAction
  | start
  | stop
  | extend
deriving DecidableEq, Repr

/-- `sessionControlMutation.onMutate` (`useDashboardLogic.ts` lines 127-148):
the optimistic room update. For `extend` with a truthy `minutes`, the new
expiry is `new Date(currentExpiry + minutes * 60000)`. -/
def sessionControlOnMutate (room : Room) (action : SessionAction)
    (minutes : Option Int) : Room :=
  match action with
  | .start => { room with status := .live }
  | .stop => { room with status := .ended }
  | .extend =>
      match minutes with
      | some m =>
          if m != 0 then
            { room with expires_at := ((room.expires_at : Int) + m * 60000).toNat }
          else room
      | none => room

/-- Errors of the server-side room registry relevant to `extend`. -/
inductive ApiError
  | forbidden
  | invalidTransition
  | validationError
deriving DecidableEq, Repr

/-- Modelled from the spec: the server-side `extend(room, token, minutes)`
operation of the Room Registry is not part of the frontend sources under
`src/`; spec section 4.1 specifies that it requires a matching organizer
token, `status == LIVE` and `minutes > 0`, and adds `minutes` to
`expires_at`. -/
def serverExtend (room : Room) (tokenMatches : Bool) (minutes : Int) :
    Except ApiError Room :=
  if !tokenMatches then .error .forbidden
  else if room.status != .live then .error .invalidTransition
  else if minutes ≤ 0 then .error .validationError
  else .ok { room with expires_at := ((room.expires_at : Int) + minutes * 60000).toNat }

/-- Claim C9: an extend request is issued only for a strictly positive total
number of minutes (and carries exactly `hours * 60 + minutes`); the client's
optimistic update and the (spec-modelled) server operation both move
`expires_at` forward by exactly the requested minutes (60000 ms each); a
successful server extend moreover requires a matching token and LIVE status. -/
theorem claim9_extend_exact :
    (∀ (hs ms : String) (t : Int), handleExtend hs ms = some t → 0 < t) ∧
    (∀ (hs ms : String) (h m : Int), jsParseInt hs = some h → jsParseInt ms = some m →
      0 < h * 60 + m → handleExtend hs ms = some (h * 60 + m)) ∧
    (∀ (room : Room) (m : Int), 0 < m →
      ((sessionControlOnMutate room .extend (some m)).expires_at : Int) =
        (room.expires_at : Int) + m * 60000) ∧
    (∀ (room : Room) (tok : Bool) (m : Int) (room' : Room),
      serverExtend room tok m = .ok room' →
      tok = true ∧ room.status = .live ∧ 0 < m ∧
      (room'.expires_at : Int) = (room.expires_at : Int) + m * 60000) := by
  refine ⟨?_, ?_, ?_, ?_⟩
  · intro hs ms t h
    unfold handleExtend at h
    cases e1 : jsParseInt hs <;> cases e2 : jsParseInt ms <;> rw [e1, e2] at h <;>
      simp only at h
    · exact absurd h (by simp)
    · exact absurd h (by simp)
    · exact absurd h (by simp)
    · split at h
      · injection h with h'
        omega
      · exact absurd h (by simp)
  · intro hs ms h m h1 h2 hpos
    unfold handleExtend
    rw [h1, h2]
    simp only [if_pos hpos]
  · intro room m hm
    have hne : (m != 0) = true := by
      simp only [bne_iff_ne, ne_eq]
      omega
    show (((if m != 0 then
        { room with expires_at := ((room.expires_at : Int) + m * 60000).toNat }
      else room).expires_at : Nat) : Int) = (room.expires_at : Int) + m * 60000
    rw [if_pos hne]
    exact Int.toNat_of_nonneg (by omega)
  · intro room tok m room' h
    unfold serverExtend at h
    cases tok
    · simp at h
    · simp only [Bool.not_true, Bool.false_eq_true, if_false] at h
      by_cases hst : room.status = RoomStatus.live
      · have hbne : (room.status != RoomStatus.live) = false := by
          simp [bne_iff_ne, hst]
        rw [hbne] at h
        simp only [Bool.false_eq_true, if_false] at h
        by_cases hm : m ≤ 0
        · rw [if_pos hm] at h
          exact absurd h (by simp)
        · rw [if_neg hm] at h
          injection h with h'
          refine ⟨rfl, hst, by omega, ?_⟩
          rw [← h']
          exact Int.toNat_of_nonneg (by omega)
      · have hbne : (room.status != RoomStatus.live) = true := by
          simp [bne_iff_ne, hst]
        rw [hbne] at h
        simp at h

/-- Claim C9 witness: extending by 1 hour 30 minutes issues a request for 90
minutes; the optimistic update and the server operation both push a LIVE
room's expiry from 1000 ms forward by exactly 90 * 60000 ms. -/
theorem claim9_witness :
    handleExtend "1" "30" = some 90 ∧
    ((sessionControlOnMutate
        { id := "r1", title := "t", code := "ABC123", status := .live, expires_at := 1000 }
        .extend (some 90)).expires_at : Int) = (1000 : Int) + 90 * 60000 ∧
    ((({ id := "r1", title := "t", code := "ABC123", status := RoomStatus.live,
         expires_at := 1000 } : Room).expires_at : Int) = (1000 : Int)) := by
  refine ⟨?_, ?_, rfl⟩
  · have h := claim9_extend_exact.2.1 "1" "30" 1 30 (by decide) (by decide) (by decide)
    simpa using h
  · have h := claim9_extend_exact.2.2.1
      { id := "r1", title := "t", code := "ABC123", status := .live, expires_at := 1000 }
      90 (by decide)
    simpa using h

/-- The `useState` initialisers for the per-room persisted id sets
(`RoomPage.tsx` lines 52-59, `useRoomSocket.ts` lines 96-112, used for both
`voted_${code}` and `my_questions_${code}`):
`try { const stored = localStorage.getItem(key); return stored ?
JSON.parse(stored) : [] } catch { return [] }`. The `JSON.parse` outcome is
passed in explicitly: `.error` models a thrown parse exception, which the
`catch` turns into `[]`. -/
def initStoredIds (stored : Option String)
    (parse : String → Except Unit (List String)) : List String :=
  match stored with
  | none => []
  | some s =>
      match parse s with
      | .ok ids => ids
      | .error _ => []

/-- Claim C10: initialising the per-room voted-question or my-question set
from device-local storage yields the empty list both when the stored value
is absent and when parsing the stored string fails; the initialiser is a
total function, so startup never fails on corrupted local state. -/
theorem claim10_storage_init :
    ∀ (parse : String → Except Unit (List String)),
      initStoredIds none parse = [] ∧
      ∀ s : String, parse s = .error () → initStoredIds (some s) parse = [] := by
  intro parse
  refine ⟨rfl, fun s h => ?_⟩
  simp [initStoredIds, h]

/-- Claim C10 witness: a parse function that always throws, applied to a
corrupted stored string, initialises to the empty list. -/
theorem claim10_witness :
    initStoredIds (some "corrupted \xc0 bytes") (fun _ => Except.error ()) = [] :=
  (claim10_storage_init (fun _ => Except.error ())).2 "corrupted \xc0 bytes" rfl

end HushHour
